import Mathlib

/-!
Verification of the chronic-absenteeism risk pipeline.

Shallow embedding of the decision logic of `src/app.py` and
`src/utils/batch_prediction.py`: the heuristic risk score, the risk-band
colouring, the intervention rule table, and the batch summary / filter /
export steps.  Python numbers are modelled as rationals, Python `None`
and caught exceptions as `Option`, and pandas data frames as lists of
association-list rows together with a column list.
-/

namespace CA

/-- Risk score computed by `on_calculate_risk` (src/app.py lines 329-354).
The body computes `attendance_rate = Present_Days / (Present_Days + Absent_Days)`,
`academic_factor = 1 - Academic_Performance / 100` and
`risk_score = 0.6 * (1 - attendance_rate) + 0.4 * academic_factor`
(intermediate names inlined here).  When `Present_Days + Absent_Days = 0`
Python raises `ZeroDivisionError`; the surrounding `try/except` then stores
`None` as the current prediction, which is modelled as `none`. -/
def on_calculate_risk (present_days absent_days academic_performance : ℚ) : Option ℚ :=
  if present_days + absent_days = 0 then none
  else some (0.6 * (1 - present_days / (present_days + absent_days))
    + 0.4 * (1 - academic_performance / 100))

/-- C1: In heuristic mode the risk score equals
`0.6 * (1 - Attendance_Rate) + 0.4 * (1 - Academic_Performance/100)` with
`Attendance_Rate = Present_Days / (Present_Days + Absent_Days)`, and for the
input Present_Days = 150, Absent_Days = 10, Academic_Performance = 70 the
computed risk is exactly 0.1575. -/
theorem heuristic_formula_scenario_c1 :
    (∀ p a ap : ℚ, p + a ≠ 0 →
      on_calculate_risk p a ap = some (0.6 * (1 - p / (p + a)) + 0.4 * (1 - ap / 100)))
    ∧ on_calculate_risk 150 10 70 = some 0.1575 := by
  constructor
  · intro p a ap h
    simp [on_calculate_risk, h]
  · norm_num [on_calculate_risk]

/-- Witness for C1: the general formula applied at the scenario input. -/
theorem heuristic_formula_scenario_c1_witness :
    on_calculate_risk 150 10 70
      = some (0.6 * (1 - 150 / (150 + 10)) + 0.4 * (1 - 70 / 100)) :=
  heuristic_formula_scenario_c1.1 150 10 70 (by norm_num)

/-- C2 (counterexample): with Present_Days = 0 and Absent_Days = 0 the risk
computation does NOT produce a risk value: the division raises and the
handler stores `None`. -/
theorem zero_days_c2_counterexample : on_calculate_risk 0 0 70 = none := by
  simp [on_calculate_risk]

/-- C2 (amended): for a record with Present_Days = 0 and Absent_Days = 0 the
heuristic risk computation hits a division by zero; the surrounding handler
catches it and no risk value is produced (the prediction is set to `None`). -/
theorem zero_days_c2 : ∀ ap : ℚ, on_calculate_risk 0 0 ap = none := by
  intro ap
  simp [on_calculate_risk]

/-- C4: whenever the heuristic computation produces a score for a valid
record (nonnegative day counts, Academic_Performance in [0,100]), that
score lies in [0,1]. -/
theorem heuristic_risk_bounds_c4 (p a ap r : ℚ)
    (hp : 0 ≤ p) (ha : 0 ≤ a) (hap0 : 0 ≤ ap) (hap1 : ap ≤ 100)
    (hr : on_calculate_risk p a ap = some r) : 0 ≤ r ∧ r ≤ 1 := by
  by_cases h : p + a = 0
  · simp [on_calculate_risk, h] at hr
  · simp only [on_calculate_risk, if_neg h, Option.some.injEq] at hr
    have hpa : 0 < p + a := lt_of_le_of_ne (by linarith) (Ne.symm h)
    have h0 : 0 ≤ p / (p + a) := div_nonneg hp hpa.le
    have h1 : p / (p + a) ≤ 1 := (div_le_one hpa).mpr (by linarith)
    have h2 : 0 ≤ ap / 100 := by positivity
    have h3 : ap / 100 ≤ 1 := by linarith [div_le_one_of_le₀ hap1 (by norm_num : (0:ℚ) ≤ 100)]
    constructor <;> linarith [hr]

/-- Witness for C4 at the scenario input 150 / 10 / 70. -/
theorem heuristic_risk_bounds_c4_witness : 0 ≤ (63/400 : ℚ) ∧ (63/400 : ℚ) ≤ 1 :=
  heuristic_risk_bounds_c4 150 10 70 (63/400) (by norm_num) (by norm_num)
    (by norm_num) (by norm_num) (by norm_num [on_calculate_risk])

/-- C7: with Present_Days fixed and nonnegative, positive total days, and
Academic_Performance fixed, increasing Absent_Days never decreases the
heuristic risk score. -/
theorem heuristic_monotone_absent_c7 (p a a' ap r r' : ℚ)
    (hp : 0 ≤ p) (hpa : 0 < p + a) (haa : a ≤ a')
    (h1 : on_calculate_risk p a ap = some r)
    (h2 : on_calculate_risk p a' ap = some r') : r ≤ r' := by
  have hpa' : 0 < p + a' := by linarith
  simp only [on_calculate_risk, if_neg (ne_of_gt hpa), if_neg (ne_of_gt hpa'),
    Option.some.injEq] at h1 h2
  have key : p / (p + a') ≤ p / (p + a) := by
    rw [div_le_div_iff₀ hpa' hpa]
    nlinarith
  linarith [h1, h2]

/-- Witness for C7: going from 10 to 20 absent days at 150 present days and
performance 70 raises the risk from 63/400 to 81/425. -/
theorem heuristic_monotone_absent_c7_witness : (63/400 : ℚ) ≤ 81/425 :=
  heuristic_monotone_absent_c7 150 10 20 70 (63/400) (81/425)
    (by norm_num) (by norm_num) (by norm_num)
    (by norm_num [on_calculate_risk]) (by norm_num [on_calculate_risk])

/-- Student data dictionary as consumed by `get_recommendation_with_reasons`
(src/app.py lines 273-327).  Every lookup in the Python code goes through
`dict.get` with a per-call default, so each field is optional. -/
structure StudentData where
  student_id : Option String := none
  grade : Option ℚ := none
  meal_code : Option String := none
  present_days : Option ℚ := none
  absent_days : Option ℚ := none
  academic_performance : Option ℚ := none

/-- The empty string, the default `get_recommendation_with_reasons` uses for a
missing Meal_Code. -/
def emptyStr : String := ""

/-- The Meal_Code value Free. -/
def mealFree : String := "Free"

/-- Stand-in for the Python `str()` interpolation of an optional numeric
value inside an f-string; a missing key prints as None.  The exact decimal
formatting of numbers is outside the model and irrelevant to the claims. -/
def pyStrOpt : Option ℚ → String
  | none => "None"
  | some q => toString q

/-- Embedding of `get_recommendation_with_reasons` (src/app.py lines 273-327):
the intervention rule table, dispatching on the risk value and appending
each tier's conditional rows after its base rows, in source order. -/
def get_recommendation_with_reasons (risk_value : ℚ) (student_data : StudentData) :
    List (String × String) :=
  if risk_value ≥ 0.7 then
    [("🚨 Immediate 1-on-1 meeting with school counselor",
      "Student is at very high risk of chronic absenteeism"),
     ("📞 Parent/guardian conference within 48 hours",
      "Early family engagement is critical")]
    ++ (if student_data.absent_days.getD 0 > 15 then
          [("🩺 Schedule health checkup",
            "High absence days (" ++ pyStrOpt student_data.absent_days ++ ")")]
        else [])
    ++ (if student_data.academic_performance.getD 70 < 60 then
          [("📚 Assign academic support tutor",
            "Low performance (" ++ pyStrOpt student_data.academic_performance ++ "%)")]
        else [])
  else if risk_value ≥ 0.3 then
    [("📅 Weekly check-ins with homeroom teacher",
      "Regular monitoring prevents escalation"),
     ("✉️ Send personalized attendance report",
      "Family awareness improves outcomes")]
    ++ (if student_data.meal_code.getD emptyStr ∈ ["Free", "Reduced"] then
          [("🍎 Connect with nutrition programs",
            "Address potential food insecurity")]
        else [])
  else
    [("👍 Positive reinforcement",
      "Maintaining good patterns prevents issues")]
    ++ (if student_data.present_days.getD 0 < 160 then
          [("🎯 Set attendance improvement goal",
            "Current attendance: " ++ pyStrOpt student_data.present_days ++ " days")]
        else [])

/-- C5: rule-table contents and order per tier, for a record whose relevant
fields are all present.  High tier always opens with the counselor meeting
and the 48-hour family conference, then health checkup exactly when
Absent_Days > 15, then academic tutor exactly when Academic_Performance < 60;
Medium tier always opens with weekly check-ins and the attendance report,
then nutrition support exactly when Meal_Code is Free or Reduced; Low tier
always opens with positive reinforcement, then the attendance improvement
goal exactly when Present_Days < 160. -/
theorem recommendation_rules_c5 (r : ℚ) (sd : StudentData) (p a ap : ℚ) (m : String)
    (hp : sd.present_days = some p) (ha : sd.absent_days = some a)
    (hap : sd.academic_performance = some ap) (hm : sd.meal_code = some m) :
    (r ≥ 0.7 → (get_recommendation_with_reasons r sd).map Prod.fst =
      ["🚨 Immediate 1-on-1 meeting with school counselor",
       "📞 Parent/guardian conference within 48 hours"]
      ++ (if a > 15 then ["🩺 Schedule health checkup"] else [])
      ++ (if ap < 60 then ["📚 Assign academic support tutor"] else []))
    ∧ (0.3 ≤ r → r < 0.7 → (get_recommendation_with_reasons r sd).map Prod.fst =
      ["📅 Weekly check-ins with homeroom teacher",
       "✉️ Send personalized attendance report"]
      ++ (if m = "Free" ∨ m = "Reduced" then ["🍎 Connect with nutrition programs"] else []))
    ∧ (r < 0.3 → (get_recommendation_with_reasons r sd).map Prod.fst =
      ["👍 Positive reinforcement"]
      ++ (if p < 160 then ["🎯 Set attendance improvement goal"] else [])) := by
  refine ⟨fun h => ?_, fun h1 h2 => ?_, fun h => ?_⟩
  · simp only [get_recommendation_with_reasons, if_pos h, ha, hap, Option.getD_some]
    split_ifs <;> simp
  · have hn : ¬ r ≥ 0.7 := by
      rw [ge_iff_le, not_le]
      exact h2
    simp only [get_recommendation_with_reasons, if_neg hn, if_pos (ge_iff_le.mpr h1), hm,
      Option.getD_some, List.mem_cons, List.mem_singleton, List.not_mem_nil, or_false]
    split_ifs <;> simp
  · have hn : ¬ r ≥ 0.7 := by
      rw [ge_iff_le, not_le]
      linarith
    have hn2 : ¬ r ≥ 0.3 := by
      rw [ge_iff_le, not_le]
      exact h
    simp only [get_recommendation_with_reasons, if_neg hn, if_neg hn2, hp, Option.getD_some]
    split_ifs <;> simp

/-- Witness for C5: a high-risk student with 20 absent days and performance 50
receives exactly the four High-tier interventions in table order. -/
theorem recommendation_rules_c5_witness :
    (get_recommendation_with_reasons 0.8
        { meal_code := some mealFree, present_days := some 100,
          absent_days := some 20, academic_performance := some 50 }).map Prod.fst =
      ["🚨 Immediate 1-on-1 meeting with school counselor",
       "📞 Parent/guardian conference within 48 hours"]
      ++ (if (20:ℚ) > 15 then ["🩺 Schedule health checkup"] else [])
      ++ (if (50:ℚ) < 60 then ["📚 Assign academic support tutor"] else []) :=
  (recommendation_rules_c5 0.8
    { meal_code := some mealFree, present_days := some 100,
      absent_days := some 20, academic_performance := some 50 }
    100 20 50 mealFree rfl rfl rfl rfl).1 (by norm_num)

/-- C6: for every risk value and every record (fields present or not) the
recommendation list is non-empty and its intervention texts are pairwise
distinct. -/
theorem recommendations_nonempty_nodup_c6 (r : ℚ) (sd : StudentData) :
    get_recommendation_with_reasons r sd ≠ []
    ∧ ((get_recommendation_with_reasons r sd).map Prod.fst).Nodup := by
  unfold get_recommendation_with_reasons
  split_ifs <;> constructor <;> simp

/-- Risk category label High. -/
def catHigh : String := "High"

/-- Risk category label Medium. -/
def catMedium : String := "Medium"

/-- Risk category label Low. -/
def catLow : String := "Low"

/-- Background colour `highlight_risk` uses for the High band. -/
def colorHigh : String := "background-color: #FFCCCC"

/-- Background colour `highlight_risk` uses for the Medium band. -/
def colorMedium : String := "background-color: #FFFFCC"

/-- Background colour `highlight_risk` uses for the Low band. -/
def colorLow : String := "background-color: #CCFFCC"

/-- Embedding of the string branch of `highlight_risk`
(src/utils/batch_prediction.py lines 150-159), the branch applied to the
Risk_Category column; `none` models falling through to the float-parsing
branch for a string that is not one of the three category labels. -/
def highlight_risk_cat (val : String) : Option String :=
  if val = "High" then some colorHigh
  else if val = "Medium" then some colorMedium
  else if val = "Low" then some colorLow
  else none

/-- Embedding of the numeric branch of `highlight_risk`
(src/utils/batch_prediction.py lines 160-169), the branch applied to the
CA_Risk column. -/
def highlight_risk_num (val : ℚ) : String :=
  if val ≥ 0.7 then colorHigh
  else if val ≥ 0.3 then colorMedium
  else colorLow

/-- C3: risk-band thresholds are closed on the lower side: a risk value is
highlighted with the High colour exactly on [0.7, ∞), Medium on [0.3, 0.7),
Low below 0.3, with the boundary points 0.3 and 0.7 falling in the higher
band; the colours agree with the ones given to the category labels. -/
theorem risk_band_thresholds_c3 (r : ℚ) :
    (r ≥ 0.7 → highlight_risk_num r = colorHigh)
    ∧ (0.3 ≤ r → r < 0.7 → highlight_risk_num r = colorMedium)
    ∧ (r < 0.3 → highlight_risk_num r = colorLow)
    ∧ highlight_risk_num 0.3 = colorMedium
    ∧ highlight_risk_num 0.7 = colorHigh
    ∧ highlight_risk_cat catHigh = some colorHigh
    ∧ highlight_risk_cat catMedium = some colorMedium
    ∧ highlight_risk_cat catLow = some colorLow := by
  refine ⟨fun h => ?_, fun h1 h2 => ?_, fun h => ?_, ?_, ?_, ?_, ?_, ?_⟩
  · rw [highlight_risk_num, if_pos h]
  · rw [highlight_risk_num, if_neg (by rw [ge_iff_le, not_le]; exact h2),
      if_pos (ge_iff_le.mpr h1)]
  · rw [highlight_risk_num, if_neg (by rw [ge_iff_le, not_le]; linarith),
      if_neg (by rw [ge_iff_le, not_le]; exact h)]
  · norm_num [highlight_risk_num]
  · norm_num [highlight_risk_num]
  · rfl
  · rfl
  · rfl

/-- Witness for C3 at the interior point 0.5. -/
theorem risk_band_thresholds_c3_witness : highlight_risk_num 0.5 = colorMedium :=
  (risk_band_thresholds_c3 0.5).2.1 (by norm_num) (by norm_num)

/-- A data-frame row: an association list from column name to cell value.
Cell values are kept as strings; the operations below only compare them for
equality. -/
abbrev Row := List (String × String)

/-- Cell of a row in a named column (pandas column access; `none` models a
missing value). -/
def getCol (row : Row) (c : String) : Option String :=
  (row.find? (fun p => p.1 == c)).map Prod.snd

/-- The Risk_Category column name. -/
def keyRiskCategory : String := "Risk_Category"

/-- The School column name. -/
def keySchool : String := "School"

/-- The School-filter selection meaning no school filter. -/
def strAll : String := "All"

/-- Count of result rows in one risk category, as computed at
src/utils/batch_prediction.py lines 82-84
(`len(results[results['Risk_Category'] == cat])`). -/
def count_category (results : List Row) (cat : String) : ℕ :=
  (results.filter (fun r => getCol r keyRiskCategory == some cat)).length

/-- Rounding to one decimal place over the rationals, modelling the
`.round(1)` at src/utils/batch_prediction.py line 92 (tie-breaking detail of
binary floating point is outside the model and irrelevant to the bound
proved below). -/
def round1 (q : ℚ) : ℚ := ((round (q * 10) : ℤ) : ℚ) / 10

/-- Percentage entry of the batch summary
(src/utils/batch_prediction.py line 92): count / total * 100 rounded to one
decimal. -/
def percentage (count total : ℕ) : ℚ := round1 ((count : ℚ) / (total : ℚ) * 100)

/-- One-decimal rounding moves a value by at most 1/20. -/
theorem round1_err (q : ℚ) : |round1 q - q| ≤ 1/20 := by
  have h : |q * 10 - ((round (q * 10) : ℤ) : ℚ)| ≤ 1/2 := abs_sub_round (q * 10)
  have e : round1 q - q = -((q * 10 - ((round (q * 10) : ℤ) : ℚ)) / 10) := by
    rw [round1]; ring
  rw [e, abs_neg, abs_div, abs_of_pos (by norm_num : (0:ℚ) < 10)]
  linarith

/-- The three per-category counts partition a result set whose categories
all lie in the three labels. -/
theorem count_partition (results : List Row)
    (hcats : ∀ r ∈ results, getCol r keyRiskCategory = some catHigh
      ∨ getCol r keyRiskCategory = some catMedium
      ∨ getCol r keyRiskCategory = some catLow) :
    count_category results catHigh + count_category results catMedium
      + count_category results catLow = results.length := by
  induction results with
  | nil => simp [count_category]
  | cons r t ih =>
    have hr := hcats r (by simp)
    have iht := ih (fun x hx => hcats x (List.mem_cons_of_mem r hx))
    have hm : catHigh ≠ catMedium := by decide
    have hl : catHigh ≠ catLow := by decide
    have hml : catMedium ≠ catLow := by decide
    simp only [count_category, List.filter_cons, List.length_cons] at *
    rcases hr with h | h | h <;>
      simp only [h, beq_iff_eq, Option.some.injEq] <;>
      simp [hm, hl, hml, hm.symm, hl.symm, hml.symm] <;>
      omega

/-- C8: with every category in the three labels, the per-category counts of
the full result set partition it, and the three one-decimal percentages of
the summary sum to 100 up to rounding error (at most 0.15 off). -/
theorem batch_summary_c8 (results : List Row)
    (hne : results ≠ [])
    (hcats : ∀ r ∈ results, getCol r keyRiskCategory = some catHigh
      ∨ getCol r keyRiskCategory = some catMedium
      ∨ getCol r keyRiskCategory = some catLow) :
    count_category results catHigh + count_category results catMedium
        + count_category results catLow = results.length
    ∧ |percentage (count_category results catHigh) results.length
        + percentage (count_category results catMedium) results.length
        + percentage (count_category results catLow) results.length - 100| ≤ 3/20 := by
  have hpart := count_partition results hcats
  refine ⟨hpart, ?_⟩
  have hT : (0:ℚ) < (results.length : ℚ) := by
    have h0 : results.length ≠ 0 := by
      simpa [List.length_eq_zero] using hne
    exact_mod_cast Nat.pos_of_ne_zero h0
  have hsum : (count_category results catHigh : ℚ) / (results.length : ℚ) * 100
      + (count_category results catMedium : ℚ) / (results.length : ℚ) * 100
      + (count_category results catLow : ℚ) / (results.length : ℚ) * 100 = 100 := by
    have hcast : (count_category results catHigh : ℚ)
        + (count_category results catMedium : ℚ)
        + (count_category results catLow : ℚ) = (results.length : ℚ) := by
      exact_mod_cast congrArg (fun n : ℕ => (n : ℚ)) hpart
    field_simp
    linarith
  have e1 := round1_err ((count_category results catHigh : ℚ) / (results.length : ℚ) * 100)
  have e2 := round1_err ((count_category results catMedium : ℚ) / (results.length : ℚ) * 100)
  have e3 := round1_err ((count_category results catLow : ℚ) / (results.length : ℚ) * 100)
  unfold percentage
  have habs := abs_add_three
    (round1 ((count_category results catHigh : ℚ) / (results.length : ℚ) * 100)
      - (count_category results catHigh : ℚ) / (results.length : ℚ) * 100)
    (round1 ((count_category results catMedium : ℚ) / (results.length : ℚ) * 100)
      - (count_category results catMedium : ℚ) / (results.length : ℚ) * 100)
    (round1 ((count_category results catLow : ℚ) / (results.length : ℚ) * 100)
      - (count_category results catLow : ℚ) / (results.length : ℚ) * 100)
  have heq : round1 ((count_category results catHigh : ℚ) / (results.length : ℚ) * 100)
      + round1 ((count_category results catMedium : ℚ) / (results.length : ℚ) * 100)
      + round1 ((count_category results catLow : ℚ) / (results.length : ℚ) * 100) - 100
      = (round1 ((count_category results catHigh : ℚ) / (results.length : ℚ) * 100)
          - (count_category results catHigh : ℚ) / (results.length : ℚ) * 100)
        + (round1 ((count_category results catMedium : ℚ) / (results.length : ℚ) * 100)
          - (count_category results catMedium : ℚ) / (results.length : ℚ) * 100)
        + (round1 ((count_category results catLow : ℚ) / (results.length : ℚ) * 100)
          - (count_category results catLow : ℚ) / (results.length : ℚ) * 100) := by
    linarith
  rw [heq]
  linarith [habs, e1, e2, e3]

/-- Witness for C8 on a three-row result set with one row per category:
percentages 33.3 + 33.3 + 33.3 miss 100 by 0.1 ≤ 0.15. -/
theorem batch_summary_c8_witness :
    count_category [[(keyRiskCategory, catHigh)], [(keyRiskCategory, catMedium)],
        [(keyRiskCategory, catLow)]] catHigh
      + count_category [[(keyRiskCategory, catHigh)], [(keyRiskCategory, catMedium)],
        [(keyRiskCategory, catLow)]] catMedium
      + count_category [[(keyRiskCategory, catHigh)], [(keyRiskCategory, catMedium)],
        [(keyRiskCategory, catLow)]] catLow
      = [[(keyRiskCategory, catHigh)], [(keyRiskCategory, catMedium)],
        [(keyRiskCategory, catLow)]].length
    ∧ |percentage (count_category [[(keyRiskCategory, catHigh)], [(keyRiskCategory, catMedium)],
          [(keyRiskCategory, catLow)]] catHigh) 3
        + percentage (count_category [[(keyRiskCategory, catHigh)], [(keyRiskCategory, catMedium)],
          [(keyRiskCategory, catLow)]] catMedium) 3
        + percentage (count_category [[(keyRiskCategory, catHigh)], [(keyRiskCategory, catMedium)],
          [(keyRiskCategory, catLow)]] catLow) 3 - 100| ≤ 3/20 :=
  batch_summary_c8 [[(keyRiskCategory, catHigh)], [(keyRiskCategory, catMedium)],
    [(keyRiskCategory, catLow)]] (by decide) (by decide)

/-- Projection of one result row to the selected export columns
(`export_data[export_cols]`). -/
def projectRow (export_cols : List String) (row : Row) : List (Option String) :=
  export_cols.map (fun c => getCol row c)

/-- Embedding of the CSV-export branch of `render_batch_prediction`
(src/utils/batch_prediction.py lines 209-221): with no columns selected a
warning is shown and nothing is written (`none`); otherwise the result rows
whose Risk_Category is in the selected set are projected to the selected
columns (the final `to_csv` serialisation is outside the model). -/
def export_results (export_cols export_risk : List String) (results : List Row) :
    Option (List (List (Option String))) :=
  if export_cols = [] then none
  else some ((results.filter
      (fun r => (getCol r keyRiskCategory).any (fun v => decide (v ∈ export_risk)))).map
    (projectRow export_cols))

/-- C9: the export aborts with nothing written exactly when the selected
column list is empty; otherwise the exported table is exactly the result
rows whose Risk_Category lies in the selected set, restricted to the
selected columns. -/
theorem export_projection_c9 (export_cols export_risk : List String) (results : List Row) :
    (export_results export_cols export_risk results = none ↔ export_cols = [])
    ∧ ∀ t, export_results export_cols export_risk results = some t →
        t = (results.filter
            (fun r => (getCol r keyRiskCategory).any (fun v => decide (v ∈ export_risk)))).map
          (projectRow export_cols) := by
  unfold export_results
  constructor
  · split_ifs with h <;> simp [h]
  · intro t ht
    split_ifs at ht with h
    exact (Option.some.inj ht).symm

/-- Witness for C9: exporting one column over a High/Low pair of rows with
only High selected yields the single projected High row. -/
theorem export_projection_c9_witness :
    [[some catHigh]] = ([[(keyRiskCategory, catHigh)], [(keyRiskCategory, catLow)]].filter
        (fun r => (getCol r keyRiskCategory).any (fun v => decide (v ∈ [catHigh])))).map
      (projectRow [keyRiskCategory]) :=
  (export_projection_c9 [keyRiskCategory] [catHigh]
      [[(keyRiskCategory, catHigh)], [(keyRiskCategory, catLow)]]).2
    [[some catHigh]] (by decide)

/-- A result data frame: its column list plus its rows. -/
structure DataFrame where
  cols : List String
  rows : List Row

/-- Embedding of `apply_filters` (src/utils/batch_prediction.py lines
139-145): an exact-match School filter, skipped when the selection is All or
the School column is missing, followed by a Risk_Category membership filter,
skipped when the category selection is empty (Python list truthiness). -/
def apply_filters (selected_school : String) (selected_risk : List String)
    (df : DataFrame) : List Row :=
  let rows1 :=
    if selected_school ≠ strAll ∧ keySchool ∈ df.cols then
      df.rows.filter (fun r => getCol r keySchool == some selected_school)
    else df.rows
  if selected_risk ≠ [] then
    rows1.filter (fun r => (getCol r keyRiskCategory).any (fun v => selected_risk.contains v))
  else rows1

/-- C10: every filtered row is an unmodified row of the original results
satisfying the School predicate, and an empty Risk_Category selection
applies no category filter: every original row passing the School predicate
is kept, whatever its category. -/
theorem apply_filters_c10 (school : String) (risks : List String) (df : DataFrame) :
    (∀ r ∈ apply_filters school risks df,
      r ∈ df.rows
      ∧ (school ≠ strAll → keySchool ∈ df.cols → getCol r keySchool = some school))
    ∧ (risks = [] → ∀ r ∈ df.rows,
        (school = strAll ∨ keySchool ∉ df.cols ∨ getCol r keySchool = some school) →
        r ∈ apply_filters school risks df) := by
  constructor
  · intro r hr
    simp only [apply_filters] at hr
    split_ifs at hr with h1 h2 h3
    · rcases List.mem_filter.mp hr with ⟨hr1, _⟩
      rcases List.mem_filter.mp hr1 with ⟨hmem, hbeq⟩
      exact ⟨hmem, fun _ _ => by simpa using hbeq⟩
    · rcases List.mem_filter.mp hr with ⟨hmem, _⟩
      exact ⟨hmem, fun hs hc => absurd ⟨hs, hc⟩ h2⟩
    · rcases List.mem_filter.mp hr with ⟨hmem, hbeq⟩
      exact ⟨hmem, fun _ _ => by simpa using hbeq⟩
    · exact ⟨hr, fun hs hc => absurd ⟨hs, hc⟩ h3⟩
  · intro hrisks r hmem hpred
    simp only [apply_filters, hrisks, ne_eq, not_true_eq_false, if_false, if_neg]
    split_ifs with hc
    · refine List.mem_filter.mpr ⟨hmem, ?_⟩
      rcases hpred with h | h | h
      · exact absurd h hc.1
      · exact absurd hc.2 h
      · simpa using h
    · exact hmem

/-- Witness for C10: with an empty category selection and school All, a row
of the results passes the filter. -/
theorem apply_filters_c10_witness :
    [(keyRiskCategory, catHigh)] ∈ apply_filters strAll []
      { cols := [keyRiskCategory], rows := [[(keyRiskCategory, catHigh)]] } :=
  (apply_filters_c10 strAll []
      { cols := [keyRiskCategory], rows := [[(keyRiskCategory, catHigh)]] }).2
    rfl [(keyRiskCategory, catHigh)] (by decide) (Or.inl rfl)

end CA
